import Mathlib

/-!
Shallow embedding of the Movie_Backend playlist application
(`playlist/models.py`, `playlist/services.py`, `playlist/serializers.py`,
`playlist/views.py`, `playlist/urls.py`).

Records are embedded as Lean structures, the relational store as lists of
rows, and each request handler / service function as a pure function from
a store (plus the request data) to a result and an updated store.  The
outbound HTTP call of the metadata client is abstracted as a function
`http : Int → HttpResp` supplied by the environment; the resolver reports
how many external fetches it performed as an explicit counter.
-/

set_option autoImplicit false

namespace MovieBackend

/-- Python `field or default` for an optional string field: `None` and the
empty string are falsy, any other string is returned unchanged. -/
def pyStrOr (a : Option String) (b : String) : String :=
  match a with
  | none => b
  | some s => if s = "" then b else s

/-- Truthiness of `v.get("key")` in Python: `None` and `""` are falsy. -/
def keyTruthy : Option String → Bool
  | none => false
  | some s => s != ""

/-- Python `s.lower()` on the field values this application compares
(ASCII letters), as a character-wise map. -/
def pyLower (s : String) : String := String.mk (s.data.map Char.toLower)

/-- Python `s.strip()`: drop whitespace from both ends. -/
def pyStripChars (l : List Char) : List Char :=
  ((l.dropWhile Char.isWhitespace).reverse.dropWhile Char.isWhitespace).reverse

/-- Python `s.split(sep)` for a one-character separator: splitting the
empty string yields `[""]`, and adjacent separators yield empty groups. -/
def pySplit (sep : Char) : List Char → List (List Char)
  | [] => [[]]
  | c :: rest =>
    if c = sep then [] :: pySplit sep rest
    else
      match pySplit sep rest with
      | [] => [[c]]
      | g :: gs => (c :: g) :: gs

/-- Numeric value of a decimal digit character. -/
def charDigit (c : Char) : Nat := c.toNat - 48

/-- Remaining digits of a Python integer literal after the first digit:
decimal digits, where a single underscore may separate two digits
(as accepted by Python's `int()`). -/
def pyDigitsRest : List Char → Nat → Option Nat
  | [], acc => some acc
  | '_' :: c :: rest, acc =>
      if c.isDigit then pyDigitsRest rest (acc * 10 + charDigit c) else none
  | c :: rest, acc =>
      if c.isDigit then pyDigitsRest rest (acc * 10 + charDigit c) else none

/-- Digit run of a Python integer literal: nonempty, starts with a digit. -/
def pyNatDigits : List Char → Option Nat
  | [] => none
  | c :: rest => if c.isDigit then pyDigitsRest rest (charDigit c) else none

/-- Python `int(s)`: strip surrounding whitespace, allow an optional sign,
then a nonempty digit run; `none` models the `ValueError` raised on any
other input. -/
def pyInt (s : String) : Option Int :=
  match pyStripChars s.data with
  | '-' :: rest => (pyNatDigits rest).map (fun n => -(n : Int))
  | '+' :: rest => (pyNatDigits rest).map (fun n => (n : Int))
  | l => (pyNatDigits l).map (fun n => (n : Int))

/-- One entry of the TMDB `videos.results` list; `site` defaults to `""`
when absent (`v.get("site", "")`), `key` is `none` when absent. -/
structure Video where
  site : String
  key : Option String
deriving DecidableEq, Repr

/-- Parsed TMDB movie-detail response body, restricted to the fields the
resolver reads. -/
structure TMDBResponse where
  title : Option String
  original_title : Option String
  overview : Option String
  poster_path : Option String
  release_date : Option String
  videos_results : List Video
deriving DecidableEq, Repr

/-- TMDB configuration as returned by the private config helper of
`services.py`: API key plus base and image-base URLs. -/
structure Config where
  api_key : String
  base : String
  image_base : String
deriving DecidableEq, Repr

/-- Response of the outbound HTTP GET issued by the metadata client. -/
structure HttpResp where
  status_code : Nat
  body : TMDBResponse
deriving DecidableEq, Repr

/-- Result of `get_tmdb_movie_details`: the parsed body, the `TMDBError`
raised on HTTP 404, or the `requests.HTTPError` raised by
`raise_for_status` on any other 4xx/5xx status. -/
inductive FetchOutcome where
  | ok (data : TMDBResponse)
  | tmdbError (msg : String)
  | httpError (code : Nat)
deriving DecidableEq, Repr

/-- Embedding of `get_tmdb_movie_details` (`services.py` lines 41-53):
issue the GET, raise `TMDBError` on status 404, raise for any other
4xx/5xx status, otherwise return the parsed JSON body. -/
def get_tmdb_movie_details (http : Int → HttpResp) (tmdb_id : Int) : FetchOutcome :=
  let resp := http tmdb_id
  if resp.status_code = 404 then
    .tmdbError ("Movie " ++ toString tmdb_id ++ " not found")
  else if 400 ≤ resp.status_code ∧ resp.status_code < 600 then
    .httpError resp.status_code
  else
    .ok resp.body

/-- Embedding of the trailer-extraction loop (`services.py` lines 73-78):
scan the video list in order, stopping at the first entry whose `site`
lowercases to `"youtube"` and whose `key` is truthy. -/
def extract_youtube_id : List Video → Option String
  | [] => none
  | v :: rest =>
      if pyLower v.site == "youtube" && keyTruthy v.key then v.key
      else extract_youtube_id rest

/-- Embedding of the release-year block (`services.py` lines 87-94):
default the date field to `""`, and when nonempty split on `-`, take the
first segment and parse it with `int()`; a parse failure yields `none`. -/
def parse_release_year (release_date_field : Option String) : Option Int :=
  let release_date := pyStrOr release_date_field ""
  if release_date = "" then none
  else pyInt (String.mk ((pySplit '-' release_date.data).headD []))

/-- Row of the `Movie` table (`models.py` lines 6-23), restricted to the
columns the application logic reads and writes. -/
structure Movie where
  id : Nat
  title : String
  poster_url : Option String
  description : String
  release_year : Option Int
  tmdb_id : Option Int
  youtube_id : Option String
deriving DecidableEq, Repr

/-- Row of the `Playlist` table (`models.py` lines 26-44). -/
structure PlaylistRec where
  id : Nat
  title : String
  description : String
deriving DecidableEq, Repr

/-- Row of the `PlaylistItem` through table (`models.py` lines 61-89);
`status` holds one of the `TextChoices` values. -/
structure PlaylistItemRec where
  id : Nat
  playlist_id : Nat
  movie_id : Nat
  status : String
deriving DecidableEq, Repr

/-- Relational store backing the three tables, with fresh-id counters for
the rows the handlers create. -/
structure Store where
  movies : List Movie
  playlists : List PlaylistRec
  items : List PlaylistItemRec
  nextMovieId : Nat
  nextItemId : Nat
deriving DecidableEq, Repr

/-- Result of the cache resolver: `(movie, created)` on success, or one of
the two exception kinds of the metadata client. -/
inductive ResolveOutcome where
  | ok (m : Movie) (created : Bool)
  | tmdbError (msg : String)
  | httpError (code : Nat)
deriving DecidableEq, Repr

/-- Lookup `Movie.objects.get(tmdb_id=tmdb_id)` on the store. -/
def find_movie_by_tmdb_id (st : Store) (tmdb_id : Int) : Option Movie :=
  st.movies.find? (fun m => m.tmdb_id == some tmdb_id)

/-- Field derivation of the movie row created by the resolver
(`services.py` lines 72-104): trailer id from the video scan, poster URL
from the image base when the poster path is truthy, release year from the
date parse, title with the `original_title` / `""` fallbacks. -/
def movie_from_tmdb_data (cfg : Config) (st : Store) (tmdb_id : Int)
    (data : TMDBResponse) : Movie :=
  { id := st.nextMovieId
    title := pyStrOr data.title (pyStrOr data.original_title "")
    poster_url :=
      match data.poster_path with
      | none => none
      | some p => if p = "" then none else some (cfg.image_base ++ p)
    description := pyStrOr data.overview ""
    release_year := parse_release_year data.release_date
    tmdb_id := some tmdb_id
    youtube_id := extract_youtube_id data.videos_results }

/-- Insertion `Movie.objects.create(...)` of one new movie row. -/
def insert_movie (st : Store) (m : Movie) : Store :=
  { st with movies := st.movies ++ [m], nextMovieId := st.nextMovieId + 1 }

/-- Embedding of `get_or_create_movie_from_tmdb` (`services.py` lines
56-106).  The third component counts the external fetches performed by
the call (zero on a cache hit, one otherwise). -/
def get_or_create_movie_from_tmdb (cfg : Config) (http : Int → HttpResp)
    (st : Store) (tmdb_id : Int) : ResolveOutcome × Store × Nat :=
  match find_movie_by_tmdb_id st tmdb_id with
  | some movie => (.ok movie false, st, 0)
  | none =>
    match get_tmdb_movie_details http tmdb_id with
    | .tmdbError msg => (.tmdbError msg, st, 1)
    | .httpError code => (.httpError code, st, 1)
    | .ok data =>
      let movie := movie_from_tmdb_data cfg st tmdb_id data
      (.ok movie true, insert_movie st movie, 1)

/-- Lookup of a playlist by primary key, as done by `self.get_object()` of
`PlaylistViewSet` (`views.py`). -/
def find_playlist (st : Store) (pk : Nat) : Option PlaylistRec :=
  st.playlists.find? (fun p => p.id == pk)

/-- Lookup `get_object_or_404(Movie, pk=movie_id)` (`views.py` line 64);
the request-supplied id is an arbitrary integer. -/
def find_movie_by_pk (st : Store) (movie_id : Int) : Option Movie :=
  st.movies.find? (fun m => (m.id : Int) == movie_id)

/-- Membership of a status value in `PlaylistItem.Status.choices`
(`models.py` lines 64-67), as enforced by the `ChoiceField`s of
`serializers.py`. -/
def valid_status (s : String) : Bool :=
  s == "to_watch" || s == "watching" || s == "watched"

/-- Raw request body of the `add_movie` action: `movie_id` is `none` when
the field is missing or not an integer, `status` is the optional raw
status string. -/
structure AddMovieBody where
  movie_id : Option Int
  status : Option String
deriving DecidableEq, Repr

/-- Embedding of `AddMovieToPlaylistSerializer` validation
(`serializers.py` lines 94-101): `movie_id` is a required integer,
`status` is a choice field defaulting to `to_watch`. -/
def validate_add_movie (b : AddMovieBody) : Option (Int × String) :=
  match b.movie_id with
  | none => none
  | some i =>
    match b.status with
    | none => some (i, "to_watch")
    | some s => if valid_status s then some (i, s) else none

/-- Existence check `PlaylistItem.objects.filter(playlist=..., movie=...)
.exists()` (`views.py` line 67). -/
def pair_exists (st : Store) (playlist_id movie_id : Nat) : Bool :=
  st.items.any (fun it => it.playlist_id == playlist_id && it.movie_id == movie_id)

/-- Count of the item rows stored for one (playlist, movie) pair. -/
def pair_count (st : Store) (playlist_id movie_id : Nat) : Nat :=
  st.items.countP (fun it => it.playlist_id == playlist_id && it.movie_id == movie_id)

/-- Row built by `PlaylistItem.objects.create(...)` in `add_movie`
(`views.py` lines 73-77). -/
def new_playlist_item (st : Store) (playlist_id movie_id : Nat) (status_value : String) :
    PlaylistItemRec :=
  { id := st.nextItemId
    playlist_id := playlist_id
    movie_id := movie_id
    status := status_value }

/-- Insertion of one new item row into the store. -/
def insert_item (st : Store) (item : PlaylistItemRec) : Store :=
  { st with items := st.items ++ [item], nextItemId := st.nextItemId + 1 }

/-- Response of the `add_movie` action. -/
inductive AddMovieResult where
  | created (item : PlaylistItemRec)
  | alreadyInPlaylist
  | validationError
  | notFound
deriving DecidableEq, Repr

/-- HTTP status code carried by each `add_movie` response
(`views.py`: 201 on create, 400 on conflict or invalid body, 404 via
`get_object_or_404`). -/
def add_movie_status_code : AddMovieResult → Nat
  | .created _ => 201
  | .alreadyInPlaylist => 400
  | .validationError => 400
  | .notFound => 404

/-- Embedding of `PlaylistViewSet.add_movie` (`views.py` lines 54-81):
resolve the playlist, validate the body, resolve the movie, reject a
duplicate (playlist, movie) pair with the conflict error, otherwise
insert one `PlaylistItem` row with the validated status. -/
def add_movie (st : Store) (pk : Nat) (body : AddMovieBody) :
    AddMovieResult × Store :=
  match find_playlist st pk with
  | none => (.notFound, st)
  | some playlist =>
    match validate_add_movie body with
    | none => (.validationError, st)
    | some (movie_id, status_value) =>
      match find_movie_by_pk st movie_id with
      | none => (.notFound, st)
      | some movie =>
        if pair_exists st playlist.id movie.id then
          (.alreadyInPlaylist, st)
        else
          let item := new_playlist_item st playlist.id movie.id status_value
          (.created item, insert_item st item)

/-- Lookup `get_object_or_404(PlaylistItem, playlist=playlist,
movie_id=movie_id)` (`views.py` lines 87 and 95). -/
def find_item (st : Store) (playlist_id : Nat) (movie_id : Int) :
    Option PlaylistItemRec :=
  st.items.find? (fun it => it.playlist_id == playlist_id && (it.movie_id : Int) == movie_id)

/-- Response of the `update_item_status` action. -/
inductive UpdateStatusResult where
  | ok (item : PlaylistItemRec)
  | validationError
  | notFound
deriving DecidableEq, Repr

/-- HTTP status code carried by each `update_item_status` response. -/
def update_status_code : UpdateStatusResult → Nat
  | .ok _ => 200
  | .validationError => 400
  | .notFound => 404

/-- Write-back `item.status = s; item.save()` of the fetched row: the row
with the item's primary key is replaced by the row with the new status.
-/
def save_item_status (st : Store) (item : PlaylistItemRec) (s : String) : Store :=
  { st with items :=
      st.items.map (fun it => if it.id == item.id then { item with status := s } else it) }

/-- Embedding of `PlaylistViewSet.update_item_status` (`views.py` lines
91-103): resolve the playlist, resolve the (playlist, movie) item,
validate the required status choice, then save the new status on that
row (a by-primary-key update of the fetched row). -/
def update_item_status (st : Store) (pk : Nat) (movie_id : Int)
    (body_status : Option String) : UpdateStatusResult × Store :=
  match find_playlist st pk with
  | none => (.notFound, st)
  | some playlist =>
    match find_item st playlist.id movie_id with
    | none => (.notFound, st)
    | some item =>
      match body_status with
      | none => (.validationError, st)
      | some s =>
        if valid_status s then
          (.ok { item with status := s }, save_item_status st item s)
        else (.validationError, st)

/-- Derived `Playlist.movie_count` (`models.py` lines 46-48):
`self.items.count()`. -/
def movie_count (st : Store) (playlist_id : Nat) : Nat :=
  (st.items.filter (fun it => it.playlist_id == playlist_id)).length

/-- Derived `Playlist.watched_count` (`models.py` lines 50-52):
`self.items.filter(status=WATCHED).count()`. -/
def watched_count (st : Store) (playlist_id : Nat) : Nat :=
  (st.items.filter (fun it => it.playlist_id == playlist_id && it.status == "watched")).length

/-- Embedding of `Playlist.get_progress` (`models.py` lines 54-58): total
item count and watched item count, returned as `(watched, total)`. -/
def get_progress (st : Store) (playlist_id : Nat) : Nat × Nat :=
  let total := (st.items.filter (fun it => it.playlist_id == playlist_id)).length
  let watched :=
    (st.items.filter (fun it => it.playlist_id == playlist_id && it.status == "watched")).length
  (watched, total)

/-- Deletion of a playlist row together with the `on_delete=CASCADE`
behavior declared on `PlaylistItem.playlist` (`models.py` lines 69-73):
every item row referencing the playlist is removed with it. -/
def delete_playlist (st : Store) (pk : Nat) : Store :=
  { st with
    playlists := st.playlists.filter (fun p => !(p.id == pk))
    items := st.items.filter (fun it => !(it.playlist_id == pk)) }

/-- Deletion of a single `PlaylistItem` row (`views.py` line 88); no
cascade runs from an item to its movie or playlist. -/
def delete_playlist_item (st : Store) (item_id : Nat) : Store :=
  { st with items := st.items.filter (fun it => !(it.id == item_id)) }

/-- Handler class names defined by the `playlist/views.py` module
(its three viewset classes). -/
def views_defined_names : List String :=
  ["MovieViewSet", "PlaylistViewSet", "PlaylistItemViewSet"]

/-- Handler names that `playlist/urls.py` imports from `.views`
(lines 3-9). -/
def urls_imported_view_names : List String :=
  ["MovieViewSet", "PlaylistViewSet", "PlaylistItemViewSet",
   "TMDBSearchView", "TMDBMovieDetailView"]

/-- Handler names the two TMDB proxy paths of `urls.py` (lines 21-22)
are routed to. -/
def tmdb_proxy_handler_names : List String :=
  ["TMDBSearchView", "TMDBMovieDetailView"]

/-- Trailer-identifier derivation as the specification words it: the key of
the first video entry whose site case-insensitively equals "youtube",
with no condition on the key itself. -/
def spec_trailer_id (videos : List Video) : Option String :=
  match videos.find? (fun v => pyLower v.site == "youtube") with
  | some v => v.key
  | none => none

/-- Trailer-identifier derivation as amended: the key of the first video
entry whose site case-insensitively equals "youtube" and whose key is
present and nonempty; unset when no such entry exists. -/
def spec_trailer_id_amended (videos : List Video) : Option String :=
  match videos.find? (fun v => pyLower v.site == "youtube" && keyTruthy v.key) with
  | some v => v.key
  | none => none

/-! Concrete fixtures used by the witness theorems. -/

/-- Sample TMDB detail response. -/
def wData : TMDBResponse :=
  { title := some "Inception"
    original_title := some "Inception"
    overview := some "Dreams inside dreams"
    poster_path := some "/poster.jpg"
    release_date := some "2010-07-15"
    videos_results := [⟨"YouTube", some "trailer1"⟩] }

/-- Sample TMDB configuration. -/
def wCfg : Config :=
  ⟨"test-key", "https://api.themoviedb.org/3", "https://image.tmdb.org/t/p/w500"⟩

/-- HTTP environment answering every fetch with 200 and `wData`. -/
def wHttpOk : Int → HttpResp := fun _ => ⟨200, wData⟩

/-- HTTP environment answering every fetch with 404. -/
def wHttp404 : Int → HttpResp := fun _ => ⟨404, wData⟩

/-- HTTP environment answering every fetch with 500. -/
def wHttp500 : Int → HttpResp := fun _ => ⟨500, wData⟩

/-- Empty store. -/
def wStore0 : Store := ⟨[], [], [], 10, 100⟩

/-- Store holding one playlist (id 1) and one movie (id 5), no items. -/
def wStoreP : Store :=
  ⟨[⟨5, "The Shining", none, "", some 1980, none, none⟩],
   [⟨1, "Horror Movies", "Scary stuff"⟩], [], 6, 100⟩

/-- Store `wStoreP` with one item (id 100) linking playlist 1 and movie 5,
status `to_watch`. -/
def wStoreI : Store :=
  ⟨[⟨5, "The Shining", none, "", some 1980, none, none⟩],
   [⟨1, "Horror Movies", "Scary stuff"⟩],
   [⟨100, 1, 5, "to_watch"⟩], 6, 101⟩

/-- Store with two playlists (ids 1, 2), one movie and one item per
playlist. -/
def wStoreD : Store :=
  ⟨[⟨5, "The Shining", none, "", some 1980, none, none⟩],
   [⟨1, "Horror Movies", "Scary stuff"⟩, ⟨2, "Comedy", ""⟩],
   [⟨100, 1, 5, "to_watch"⟩, ⟨101, 2, 5, "watched"⟩], 6, 102⟩

/-! Helper lemmas. -/

/-- Filtering by a conjunction of predicates keeps at most as many
elements as filtering by the first predicate alone. -/
theorem length_filter_and_le {α : Type} (p q : α → Bool) (l : List α) :
    (l.filter (fun x => p x && q x)).length ≤ (l.filter p).length := by
  induction l with
  | nil => simp
  | cons x xs ih =>
    simp only [List.filter_cons]
    cases hp : p x <;> cases hq : q x <;> simp [hp, hq] <;> omega

/-! Claim theorems. -/

/-- C3 counterexample: on the video list whose first YouTube-site entry has
an empty key and whose second has key "abc", the code yields "abc",
while the claimed rule (key of the first entry whose site
case-insensitively equals "youtube") yields "", so the claim as stated
is false on the code. -/
theorem c3_counterexample :
    extract_youtube_id [⟨"YouTube", some ""⟩, ⟨"youtube", some "abc"⟩] = some "abc" ∧
    spec_trailer_id [⟨"YouTube", some ""⟩, ⟨"youtube", some "abc"⟩] = some "" ∧
    (extract_youtube_id [⟨"YouTube", some ""⟩, ⟨"youtube", some "abc"⟩] ==
      spec_trailer_id [⟨"YouTube", some ""⟩, ⟨"youtube", some "abc"⟩]) = false :=
  ⟨by decide, by decide, by decide⟩

/-- C3 (amended): for every fetched response, the trailer identifier is the
key of the first video entry whose site case-insensitively equals
"youtube" and whose key is present and nonempty; if no such entry
exists, the trailer identifier is left unset. -/
theorem c3_trailer_id_amended (videos : List Video) :
    extract_youtube_id videos = spec_trailer_id_amended videos := by
  induction videos with
  | nil => rfl
  | cons v rest ih =>
    by_cases h : (pyLower v.site == "youtube" && keyTruthy v.key) = true
    · simp [extract_youtube_id, spec_trailer_id_amended, List.find?_cons_of_pos _ h, h]
    · rw [show extract_youtube_id (v :: rest) = extract_youtube_id rest by
        simp [extract_youtube_id, h]]
      rw [show spec_trailer_id_amended (v :: rest) = spec_trailer_id_amended rest by
        unfold spec_trailer_id_amended
        rw [@List.find?_cons_of_neg _
          (fun v => pyLower v.site == "youtube" && keyTruthy v.key) v rest h]]
      exact ih

/-- C4: the release year is derived by splitting the release-date field on
'-', taking the first segment and parsing it as a Python integer;
"2010-07-15" yields 2010, and an empty, missing or malformed date yields
an unset year, with no failure (the derivation is a total function). -/
theorem c4_release_year_derivation :
    (∀ d : String, parse_release_year (some d) =
        if d = "" then none
        else pyInt (String.mk ((pySplit '-' d.data).headD []))) ∧
    parse_release_year (some "2010-07-15") = some 2010 ∧
    parse_release_year (some "") = none ∧
    parse_release_year none = none ∧
    parse_release_year (some "not-a-date") = none ∧
    parse_release_year (some "July 15, 2010") = none := by
  refine ⟨fun d => ?_, by decide, by decide, by decide, by decide, by decide⟩
  by_cases h : d = "" <;> simp [parse_release_year, pyStrOr, h]

/-- C7: get_progress returns the pair (watched, total) where total counts
the playlist's item rows and watched counts those whose status is
"watched"; the pair coincides with the derived watched_count and
movie_count fields, and watched never exceeds total. -/
theorem c7_get_progress_consistent (st : Store) (playlist_id : Nat) :
    get_progress st playlist_id = (watched_count st playlist_id, movie_count st playlist_id) ∧
    (get_progress st playlist_id).1 ≤ (get_progress st playlist_id).2 := by
  refine ⟨rfl, ?_⟩
  simpa [get_progress] using
    length_filter_and_le (fun it : PlaylistItemRec => it.playlist_id == playlist_id)
      (fun it => it.status == "watched") st.items

/-- C2: the two TMDB proxy paths of the routing table are not served by
defined handlers: urls.py imports "TMDBSearchView" and
"TMDBMovieDetailView" from the views module, but the views module
defines neither, so the import of the routing table fails. -/
theorem c2_tmdb_proxy_handlers_undefined :
    "TMDBSearchView" ∈ urls_imported_view_names ∧
    "TMDBMovieDetailView" ∈ urls_imported_view_names ∧
    urls_imported_view_names.filter (fun n => views_defined_names.contains n) =
      ["MovieViewSet", "PlaylistViewSet", "PlaylistItemViewSet"] ∧
    urls_imported_view_names.filter (fun n => !(views_defined_names.contains n)) =
      tmdb_proxy_handler_names ∧
    tmdb_proxy_handler_names.all (fun n => views_defined_names.contains n) = false := by
  decide

/-- C9: deleting a playlist removes every item row referencing it, keeps
every item row of other playlists, and leaves the movie table unchanged;
deleting a single item also leaves the movie table unchanged. -/
theorem c9_delete_playlist_cascade (st : Store) (pk : Nat) :
    ((delete_playlist st pk).items.filter (fun it => it.playlist_id == pk)) = [] ∧
    (∀ it, it ∈ st.items → it.playlist_id ≠ pk → it ∈ (delete_playlist st pk).items) ∧
    (delete_playlist st pk).movies = st.movies ∧
    (∀ item_id, (delete_playlist_item st item_id).movies = st.movies) := by
  refine ⟨?_, ?_, rfl, fun _ => rfl⟩
  · simp [delete_playlist, List.filter_filter]
  · intro it hmem hne
    simp [delete_playlist, List.mem_filter, hmem, hne]

/-- C9 witness: deleting playlist 1 of the two-playlist store removes its
item, keeps the item of playlist 2 and leaves the movie table alone. -/
theorem c9_delete_playlist_cascade_witness :
    ((delete_playlist wStoreD 1).items.filter (fun it => it.playlist_id == 1)) = [] ∧
    (⟨101, 2, 5, "watched"⟩ : PlaylistItemRec) ∈ (delete_playlist wStoreD 1).items ∧
    (delete_playlist wStoreD 1).movies = wStoreD.movies ∧
    (delete_playlist_item wStoreD 100).movies = wStoreD.movies := by
  have h := c9_delete_playlist_cascade wStoreD 1
  exact ⟨h.1, h.2.1 ⟨101, 2, 5, "watched"⟩ (by decide) (by decide), h.2.2.1, h.2.2.2 100⟩

/-- C1: on a cache hit the resolver returns the stored movie with
wasCreated = false, the store unchanged and zero external fetches, and
its result does not depend on the HTTP environment at all; on a miss
with a successful fetch, the call performs exactly one fetch, creates
exactly one movie carrying the requested external identifier, and a
second call then performs zero fetches and returns that same movie with
wasCreated = false, leaving the store unchanged. -/
theorem c1_resolver_cache (cfg : Config) (http : Int → HttpResp) (st : Store) (e : Int) :
    (∀ m, find_movie_by_tmdb_id st e = some m →
        get_or_create_movie_from_tmdb cfg http st e = (.ok m false, st, 0) ∧
        (∀ http' : Int → HttpResp,
          get_or_create_movie_from_tmdb cfg http' st e =
            get_or_create_movie_from_tmdb cfg http st e)) ∧
    (find_movie_by_tmdb_id st e = none →
      ∀ data, get_tmdb_movie_details http e = .ok data →
        get_or_create_movie_from_tmdb cfg http st e =
          (.ok (movie_from_tmdb_data cfg st e data) true,
           insert_movie st (movie_from_tmdb_data cfg st e data), 1) ∧
        (movie_from_tmdb_data cfg st e data).tmdb_id = some e ∧
        ((insert_movie st (movie_from_tmdb_data cfg st e data)).movies.countP
            (fun mv => mv.tmdb_id == some e)) = 1 ∧
        get_or_create_movie_from_tmdb cfg http
            (insert_movie st (movie_from_tmdb_data cfg st e data)) e =
          (.ok (movie_from_tmdb_data cfg st e data) false,
           insert_movie st (movie_from_tmdb_data cfg st e data), 0)) := by
  constructor
  · intro m hm
    exact ⟨by simp [get_or_create_movie_from_tmdb, hm],
           fun http' => by simp [get_or_create_movie_from_tmdb, hm]⟩
  · intro hmiss data hdata
    have htid : (movie_from_tmdb_data cfg st e data).tmdb_id = some e := rfl
    have hp : ((movie_from_tmdb_data cfg st e data).tmdb_id == some e) = true := by
      rw [htid]; exact beq_self_eq_true _
    have hmiss' : st.movies.find? (fun m => m.tmdb_id == some e) = none := hmiss
    have hfind1 : find_movie_by_tmdb_id
        (insert_movie st (movie_from_tmdb_data cfg st e data)) e =
        some (movie_from_tmdb_data cfg st e data) := by
      unfold find_movie_by_tmdb_id insert_movie
      rw [List.find?_append, hmiss']
      simp [@List.find?_cons_of_pos _ (fun m => m.tmdb_id == some e) _ [] hp, htid]
    have hcount : ((insert_movie st (movie_from_tmdb_data cfg st e data)).movies.countP
        (fun mv => mv.tmdb_id == some e)) = 1 := by
      unfold insert_movie
      have h0 : st.movies.countP (fun mv => mv.tmdb_id == some e) = 0 := by
        rw [List.countP_eq_zero]
        intro a ha
        exact List.find?_eq_none.mp hmiss' a ha
      simp [List.countP_append, h0, List.countP_cons, hp]
    refine ⟨by simp [get_or_create_movie_from_tmdb, hmiss, hdata], htid, hcount, ?_⟩
    simp [get_or_create_movie_from_tmdb, hfind1]

/-- C1 witness: resolving identifier 27205 against the empty store with a
succeeding HTTP environment creates the derived movie, and the immediate
second call returns it from the cache with zero fetches. -/
theorem c1_resolver_cache_witness :
    get_or_create_movie_from_tmdb wCfg wHttpOk wStore0 27205 =
      (.ok (movie_from_tmdb_data wCfg wStore0 27205 wData) true,
       insert_movie wStore0 (movie_from_tmdb_data wCfg wStore0 27205 wData), 1) ∧
    get_or_create_movie_from_tmdb wCfg wHttpOk
        (insert_movie wStore0 (movie_from_tmdb_data wCfg wStore0 27205 wData)) 27205 =
      (.ok (movie_from_tmdb_data wCfg wStore0 27205 wData) false,
       insert_movie wStore0 (movie_from_tmdb_data wCfg wStore0 27205 wData), 0) := by
  have h := (c1_resolver_cache wCfg wHttpOk wStore0 27205).2 (by decide) wData (by decide)
  exact ⟨h.1, h.2.2.2⟩

/-- C5: on a cache miss, an HTTP 404 from the metadata service propagates
as the domain-level not-found error with the store unchanged (no movie
created), any other non-success status (4xx/5xx) propagates as the
generic upstream failure with the store unchanged, and the two failure
kinds are distinct. -/
theorem c5_fetch_failure_propagates (cfg : Config) (http : Int → HttpResp)
    (st : Store) (e : Int) (hmiss : find_movie_by_tmdb_id st e = none) :
    ((http e).status_code = 404 →
      get_or_create_movie_from_tmdb cfg http st e =
        (.tmdbError ("Movie " ++ toString e ++ " not found"), st, 1)) ∧
    ((http e).status_code ≠ 404 → 400 ≤ (http e).status_code → (http e).status_code < 600 →
      get_or_create_movie_from_tmdb cfg http st e =
        (.httpError (http e).status_code, st, 1)) ∧
    (∀ msg code, (ResolveOutcome.tmdbError msg) ≠ (ResolveOutcome.httpError code)) := by
  refine ⟨?_, ?_, fun msg code hcontra => by cases hcontra⟩
  · intro h404
    simp [get_or_create_movie_from_tmdb, hmiss, get_tmdb_movie_details, h404]
  · intro hne h1 h2
    simp [get_or_create_movie_from_tmdb, hmiss, get_tmdb_movie_details, hne, h1, h2]

/-- C5 witness: resolving identifier 42 against the empty store surfaces a
404 environment as the not-found error and a 500 environment as the
generic failure, each leaving the store unchanged after one fetch. -/
theorem c5_fetch_failure_propagates_witness :
    get_or_create_movie_from_tmdb wCfg wHttp404 wStore0 42 =
      (.tmdbError ("Movie " ++ toString (42 : Int) ++ " not found"), wStore0, 1) ∧
    get_or_create_movie_from_tmdb wCfg wHttp500 wStore0 42 =
      (.httpError (wHttp500 42).status_code, wStore0, 1) := by
  have h4 := c5_fetch_failure_propagates wCfg wHttp404 wStore0 42 (by decide)
  have h5 := c5_fetch_failure_propagates wCfg wHttp500 wStore0 42 (by decide)
  exact ⟨h4.1 (by decide), h5.2.1 (by decide) (by decide) (by decide)⟩

/-- C6: with the playlist resolved, the body validated and the movie
resolved, add_movie fails with the 400 domain-conflict and an unchanged
store when an item for the (playlist, movie) pair exists; otherwise it
creates exactly one item carrying the validated status (which defaults
to to_watch when the body omits it), answers 201, raises the pair count
from zero to one, and an immediate repeat of the call fails with the
conflict, leaving the pair count at one. -/
theorem c6_add_movie_conflict (st : Store) (pk : Nat) (body : AddMovieBody)
    (p : PlaylistRec) (i : Int) (s : String) (m : Movie)
    (hp : find_playlist st pk = some p)
    (hv : validate_add_movie body = some (i, s))
    (hm : find_movie_by_pk st i = some m) :
    (pair_exists st p.id m.id = true →
      add_movie st pk body = (.alreadyInPlaylist, st) ∧
      add_movie_status_code (add_movie st pk body).1 = 400) ∧
    (pair_exists st p.id m.id = false →
      add_movie st pk body =
        (.created (new_playlist_item st p.id m.id s),
         insert_item st (new_playlist_item st p.id m.id s)) ∧
      add_movie_status_code (add_movie st pk body).1 = 201 ∧
      (new_playlist_item st p.id m.id s).status = s ∧
      pair_count (insert_item st (new_playlist_item st p.id m.id s)) p.id m.id =
        pair_count st p.id m.id + 1 ∧
      pair_count st p.id m.id = 0 ∧
      add_movie (insert_item st (new_playlist_item st p.id m.id s)) pk body =
        (.alreadyInPlaylist, insert_item st (new_playlist_item st p.id m.id s))) ∧
    (∀ j : Int, validate_add_movie ⟨some j, none⟩ = some (j, "to_watch")) := by
  refine ⟨?_, ?_, fun j => rfl⟩
  · intro hex
    have h1 : add_movie st pk body = (.alreadyInPlaylist, st) := by
      simp [add_movie, hp, hv, hm, hex]
    exact ⟨h1, by rw [h1]; rfl⟩
  · intro hnex
    have h1 : add_movie st pk body =
        (.created (new_playlist_item st p.id m.id s),
         insert_item st (new_playlist_item st p.id m.id s)) := by
      simp [add_movie, hp, hv, hm, hnex]
    have hcount0 : pair_count st p.id m.id = 0 := by
      rw [pair_count, List.countP_eq_zero]
      intro a ha
      exact List.any_eq_false.mp hnex a ha
    have hcount1 : pair_count (insert_item st (new_playlist_item st p.id m.id s)) p.id m.id =
        pair_count st p.id m.id + 1 := by
      simp [pair_count, insert_item, new_playlist_item, List.countP_append, List.countP_cons]
    have hp' : find_playlist (insert_item st (new_playlist_item st p.id m.id s)) pk = some p := hp
    have hm' : find_movie_by_pk (insert_item st (new_playlist_item st p.id m.id s)) i = some m := hm
    have hex' : pair_exists (insert_item st (new_playlist_item st p.id m.id s)) p.id m.id = true := by
      simp [pair_exists, insert_item, new_playlist_item]
    have h2 : add_movie (insert_item st (new_playlist_item st p.id m.id s)) pk body =
        (.alreadyInPlaylist, insert_item st (new_playlist_item st p.id m.id s)) := by
      simp [add_movie, hp', hv, hm', hex']
    exact ⟨h1, by rw [h1]; rfl, rfl, hcount1, hcount0, h2⟩

/-- C6 witness: adding movie 5 to playlist 1 of the item-free store creates
one item with the default status, the repeated call answers with the
conflict, and the pair count ends at one. -/
theorem c6_add_movie_conflict_witness :
    add_movie wStoreP 1 ⟨some 5, none⟩ =
      (.created (new_playlist_item wStoreP 1 5 "to_watch"),
       insert_item wStoreP (new_playlist_item wStoreP 1 5 "to_watch")) ∧
    add_movie (insert_item wStoreP (new_playlist_item wStoreP 1 5 "to_watch")) 1 ⟨some 5, none⟩ =
      (.alreadyInPlaylist, insert_item wStoreP (new_playlist_item wStoreP 1 5 "to_watch")) ∧
    pair_count (insert_item wStoreP (new_playlist_item wStoreP 1 5 "to_watch")) 1 5 = 1 := by
  have h := (c6_add_movie_conflict wStoreP 1 ⟨some 5, none⟩
      ⟨1, "Horror Movies", "Scary stuff"⟩ 5 "to_watch"
      ⟨5, "The Shining", none, "", some 1980, none, none⟩
      (by decide) (by decide) (by decide)).2.1 (by decide)
  exact ⟨h.1, h.2.2.2.2.2, by rw [h.2.2.2.1, h.2.2.2.2.1]⟩

/-- C10: with the playlist resolved and the movie id a well-typed integer
that no movie row carries, any validated add_movie request answers 404
with the store unchanged (no item row is created), and a body holding
only that integer id passes field validation with the default status. -/
theorem c10_add_movie_missing_movie (st : Store) (pk : Nat) (i : Int) (p : PlaylistRec)
    (hp : find_playlist st pk = some p)
    (hm : find_movie_by_pk st i = none) :
    (∀ body s, validate_add_movie body = some (i, s) →
      add_movie st pk body = (.notFound, st) ∧
      add_movie_status_code (add_movie st pk body).1 = 404) ∧
    validate_add_movie ⟨some i, none⟩ = some (i, "to_watch") := by
  refine ⟨?_, rfl⟩
  intro body s hv
  have h1 : add_movie st pk body = (.notFound, st) := by
    simp [add_movie, hp, hv, hm]
  exact ⟨h1, by rw [h1]; rfl⟩

/-- C10 witness: adding the absent movie id 99 to playlist 1 passes
validation and answers 404 with the store unchanged. -/
theorem c10_add_movie_missing_movie_witness :
    add_movie wStoreP 1 ⟨some 99, none⟩ = (.notFound, wStoreP) ∧
    validate_add_movie ⟨some 99, none⟩ = some (99, "to_watch") := by
  have h := c10_add_movie_missing_movie wStoreP 1 99
    ⟨1, "Horror Movies", "Scary stuff"⟩ (by decide) (by decide)
  exact ⟨(h.1 ⟨some 99, none⟩ "to_watch" h.2).1, h.2⟩

/-- Mapping a keyed update over a list none of whose keys equals the
target key leaves the list unchanged. -/
theorem map_update_id (xs : List PlaylistItemRec) (target : Nat) (upd : PlaylistItemRec)
    (h : ∀ x ∈ xs, x.id ≠ target) :
    xs.map (fun it => if it.id == target then upd else it) = xs := by
  induction xs with
  | nil => rfl
  | cons x l ih =>
    have hx : (x.id == target) = false := by
      simpa using h x (List.mem_cons_self x l)
    rw [List.map_cons, ih (fun y hy => h y (List.mem_cons_of_mem x hy))]
    simp [hx]

/-- Updating the unique list element carrying the target key changes any
count by the difference between the old and the new element. -/
theorem countP_map_update (l : List PlaylistItemRec) (it0 upd : PlaylistItemRec)
    (q : PlaylistItemRec → Bool)
    (hnd : (l.map (fun it => it.id)).Nodup) (hmem : it0 ∈ l) :
    (l.map (fun it => if it.id == it0.id then upd else it)).countP q
        + (if q it0 then 1 else 0) =
      l.countP q + (if q upd then 1 else 0) := by
  induction l with
  | nil => cases hmem
  | cons x xs ih =>
    rw [List.map_cons, List.nodup_cons] at hnd
    rcases List.mem_cons.mp hmem with heq | hx
    · subst heq
      have htail : ∀ y ∈ xs, y.id ≠ it0.id := by
        intro y hy he
        exact hnd.1 (by rw [← he]; exact List.mem_map_of_mem _ hy)
      rw [List.map_cons, map_update_id xs it0.id upd htail]
      have hxx : (it0.id == it0.id) = true := beq_self_eq_true _
      rw [show (if (it0.id == it0.id : Bool) then upd else it0) = upd from by simp [hxx]]
      rw [List.countP_cons, List.countP_cons]
      omega
    · have hxne : (x.id == it0.id) = false := by
        have hne : x.id ≠ it0.id := by
          intro he
          exact hnd.1 (by rw [he]; exact List.mem_map_of_mem _ hx)
        simpa using hne
      rw [List.map_cons,
        show (if (x.id == it0.id : Bool) then upd else x) = x from by simp [hxne],
        List.countP_cons, List.countP_cons]
      have := ih hnd.2 hx
      omega

/-- After the keyed update of the row found by a predicate, the predicate
finds the updated row, provided keys are unique and the updated row
still satisfies the predicate. -/
theorem find?_map_update (l : List PlaylistItemRec) (it0 upd : PlaylistItemRec)
    (pred : PlaylistItemRec → Bool)
    (hfind : l.find? pred = some it0)
    (hnd : (l.map (fun it => it.id)).Nodup)
    (hupd : pred upd = true) :
    (l.map (fun it => if it.id == it0.id then upd else it)).find? pred = some upd := by
  induction l with
  | nil => cases hfind
  | cons x xs ih =>
    rw [List.map_cons, List.nodup_cons] at hnd
    by_cases hx : pred x = true
    · rw [List.find?_cons_of_pos _ hx] at hfind
      injection hfind with he
      subst he
      have hxx : (x.id == x.id) = true := beq_self_eq_true _
      rw [List.map_cons, show (if (x.id == x.id : Bool) then upd else x) = upd from by simp [hxx]]
      exact List.find?_cons_of_pos _ hupd
    · rw [List.find?_cons_of_neg _ hx] at hfind
      have hmem := List.mem_of_find?_eq_some hfind
      have hxne : (x.id == it0.id) = false := by
        have hne : x.id ≠ it0.id := by
          intro he
          exact hnd.1 (by rw [he]; exact List.mem_map_of_mem _ hmem)
        simpa using hne
      rw [List.map_cons,
        show (if (x.id == it0.id : Bool) then upd else x) = x from by simp [hxne],
        List.find?_cons_of_neg _ hx]
      exact ih hfind hnd.2

/-- C8: with the playlist resolved and an item row present for the
(playlist, movie) pair, update_item_status rejects any status outside
the three valid values with a validation error and an unchanged store,
while "watched" succeeds with a 200 response carrying the updated item,
after which the pair's row reads back as watched and the playlist's
watched count grows by one unless the row already was watched; with no
matching item row the operation answers not-found. -/
theorem c8_update_item_status (st : Store) (pk : Nat) (mid : Int)
    (p : PlaylistRec) (item : PlaylistItemRec)
    (hp : find_playlist st pk = some p)
    (hnd : (st.items.map (fun it => it.id)).Nodup)
    (hi : find_item st p.id mid = some item) :
    (∀ s, valid_status s = false →
      update_item_status st pk mid (some s) = (.validationError, st)) ∧
    (update_item_status st pk mid (some "watched") =
        (.ok { item with status := "watched" }, save_item_status st item "watched") ∧
      update_status_code (update_item_status st pk mid (some "watched")).1 = 200 ∧
      find_item (save_item_status st item "watched") p.id mid =
        some { item with status := "watched" } ∧
      watched_count (save_item_status st item "watched") p.id =
        watched_count st p.id + (if item.status == "watched" then 0 else 1)) ∧
    (∀ (st₂ : Store) (mid₂ : Int),
      find_playlist st₂ pk = some p → find_item st₂ p.id mid₂ = none →
      ∀ bs, update_item_status st₂ pk mid₂ bs = (.notFound, st₂)) := by
  have hw : valid_status "watched" = true := by decide
  have hpred : (item.playlist_id == p.id && ((item.movie_id : Int) == mid)) = true := by
    have h := hi
    unfold find_item at h
    have h2 := List.find?_some h
    exact h2
  refine ⟨?_, ⟨?_, ?_, ?_, ?_⟩, ?_⟩
  · intro s hs
    simp [update_item_status, hp, hi, hs]
  · simp [update_item_status, hp, hi, hw]
  · simp [update_item_status, hp, hi, hw, update_status_code]
  · unfold find_item save_item_status
    exact find?_map_update st.items item { item with status := "watched" }
      (fun it => it.playlist_id == p.id && (it.movie_id : Int) == mid) hi hnd hpred
  · have hq : (fun it => it.playlist_id == p.id && it.status == "watched")
        { item with status := "watched" } = true := by
      have h1 : (item.playlist_id == p.id) = true := by
        have := hpred
        simp only [Bool.and_eq_true] at this
        exact this.1
      simp [h1]
    have hcount := countP_map_update st.items item { item with status := "watched" }
      (fun it => it.playlist_id == p.id && it.status == "watched") hnd
      (List.mem_of_find?_eq_some hi)
    rw [hq] at hcount
    have hwc : watched_count (save_item_status st item "watched") p.id
        = (st.items.map (fun it => if it.id == item.id
            then { item with status := "watched" } else it)).countP
          (fun it => it.playlist_id == p.id && it.status == "watched") := by
      unfold watched_count save_item_status
      rw [List.countP_eq_length_filter]
    have hwc0 : watched_count st p.id
        = st.items.countP (fun it => it.playlist_id == p.id && it.status == "watched") := by
      unfold watched_count
      rw [List.countP_eq_length_filter]
    have hqitem : (fun it => it.playlist_id == p.id && it.status == "watched") item
        = (item.status == "watched") := by
      have h1 : (item.playlist_id == p.id) = true := by
        have := hpred
        simp only [Bool.and_eq_true] at this
        exact this.1
      simp [h1]
    rw [hwc, hwc0]
    rw [hqitem] at hcount
    by_cases hst : (item.status == "watched") = true
    · rw [if_pos hst, if_pos rfl] at hcount
      rw [if_pos hst]
      omega
    · rw [if_neg hst, if_pos rfl] at hcount
      rw [if_neg hst]
      omega
  · intro st₂ mid₂ hp₂ hi₂ bs
    simp [update_item_status, hp₂, hi₂]

/-- C8 witness: on the store holding the to_watch item, a bogus status is
rejected, "watched" succeeds and yields watched count one, and a movie
with no item row answers not-found. -/
theorem c8_update_item_status_witness :
    update_item_status wStoreI 1 5 (some "bogus") = (.validationError, wStoreI) ∧
    update_item_status wStoreI 1 5 (some "watched") =
      (.ok ⟨100, 1, 5, "watched"⟩,
       save_item_status wStoreI ⟨100, 1, 5, "to_watch"⟩ "watched") ∧
    watched_count (save_item_status wStoreI ⟨100, 1, 5, "to_watch"⟩ "watched") 1 = 1 ∧
    update_item_status wStoreI 1 7 (some "watched") = (.notFound, wStoreI) := by
  have h := c8_update_item_status wStoreI 1 5 ⟨1, "Horror Movies", "Scary stuff"⟩
    ⟨100, 1, 5, "to_watch"⟩ (by decide) (by decide) (by decide)
  refine ⟨h.1 "bogus" (by decide), h.2.1.1, ?_, ?_⟩
  · rw [h.2.1.2.2.2]; decide
  · exact h.2.2 wStoreI 7 (by decide) (by decide) (some "watched")

end MovieBackend
